import Mathlib

/-!
Shallow embedding of `src/components/PasswordManager.tsx` from
vault-guard-cli: a credential-vault controller over a remote table API.
Remote calls are modelled by passing their outcomes as explicit inputs;
each operation returns the new controller state together with the toasts
it surfaced and the remote calls it issued, in order.
-/

/-- A stored credential record (interface `Password` in the source). -/
structure Password where
  id : String
  website : String
  username : String
  password : String
  notes : Option String
  created_at : String
deriving Repr, DecidableEq

/-- The transient form buffer (`formData` state in the source). -/
structure FormData where
  website : String
  username : String
  password : String
  notes : String
deriving Repr, DecidableEq

/-- The all-empty form buffer, as produced by
`setFormData({ website: "", username: "", password: "", notes: "" })`. -/
def emptyFormData : FormData :=
  { website := "", username := "", password := "", notes := "" }

/-- The controller state owned by the `PasswordManager` component.
`showPasswords` models the JS record as an association list: a spread
`{ ...prev, [id]: v }` is a prepend, and lookup takes the newest entry. -/
structure ControllerState where
  passwords : List Password
  loading : Bool
  showPasswords : List (String × Bool)
  isAddDialogOpen : Bool
  editingPassword : Option Password
  formData : FormData
deriving Repr, DecidableEq

/-- The state the component mounts with (`useState` initial values). -/
def initialState : ControllerState :=
  { passwords := []
  , loading := true
  , showPasswords := []
  , isAddDialogOpen := false
  , editingPassword := none
  , formData := emptyFormData }

/-- Outcome of the remote `select` call: failure, or success carrying
`data`, which supabase may return as null (modelled by `Option`). -/
inductive FetchResult where
  | ok (data : Option (List Password))
  | err
deriving Repr, DecidableEq

/-- Outcome of a remote mutation (`insert`, `update`, `delete`). -/
inductive MutResult where
  | ok
  | err
deriving Repr, DecidableEq

/-- A toast surfaced through `useToast` (title, optional description,
and whether the `destructive` variant was used). -/
structure Toast where
  title : String
  description : Option String
  destructive : Bool
deriving Repr, DecidableEq

/-- A remote call issued against the `passwords` table. -/
inductive RemoteCall where
  | listCall
  | insertCall (payload : FormData)
  | updateCall (id : String) (payload : FormData)
  | deleteCall (id : String)
deriving Repr, DecidableEq

/-- Result triple of an operation: new state, toasts surfaced, remote
calls issued, each in program order. -/
abbrev OpResult := ControllerState × List Toast × List RemoteCall

/-- Embedding of `fetchPasswords`: issues the `select` call; on error
surfaces "Failed to load passwords" and leaves `passwords` alone; on
success stores `data || []`; clears `loading` on both paths. -/
def fetchPasswords (s : ControllerState) (res : FetchResult) : OpResult :=
  match res with
  | .err =>
      ({ s with loading := false },
       [{ title := "Error", description := some "Failed to load passwords",
          destructive := true }],
       [RemoteCall.listCall])
  | .ok data =>
      ({ s with passwords := data.getD [], loading := false },
       [],
       [RemoteCall.listCall])

/-- The character alphabet used by `generatePassword` in the source. -/
def chars : String :=
  "ABCDEFGHIJKLMNOPQRSTUVWXYZabcdefghijklmnopqrstuvwxyz0123456789!@#$%^&*"

/-- JS `String.prototype.charAt`: the one-character string at index `i`,
or the empty string when `i` is out of range. -/
def charAt (s : String) (i : Nat) : String :=
  match s.data.get? i with
  | some c => String.singleton c
  | none => ""

/-- The string built by the loop in `generatePassword`: sixteen
iterations of `result += chars.charAt(rnd i)`, where `rnd i` models
`Math.floor(Math.random() * chars.length)` at iteration `i`. -/
def generateResult (rnd : Nat → Nat) : String :=
  (List.range 16).foldl (fun acc i => acc ++ charAt chars (rnd i)) ""

/-- Embedding of `generatePassword`: writes the generated string into
`formData.password`, spreading the rest of the buffer unchanged. -/
def generatePassword (s : ControllerState) (rnd : Nat → Nat) : ControllerState :=
  { s with formData := { s.formData with password := generateResult rnd } }

/-- Embedding of `handleSubmit`: branches on `editingPassword`; issues
an update-by-id or an insert with the form buffer as payload; on success
surfaces a success toast, starts `fetchPasswords` (whose outcome is the
`fetchRes` argument) and clears the edit target or closes the add
dialog; on failure surfaces the matching error toast. In every path the
final `setFormData` resets the buffer to all-empty strings. -/
def handleSubmit (s : ControllerState) (mutRes : MutResult)
    (fetchRes : FetchResult) : OpResult :=
  match s.editingPassword with
  | some editing =>
      match mutRes with
      | .err =>
          ({ s with formData := emptyFormData },
           [{ title := "Error", description := some "Failed to update password",
              destructive := true }],
           [RemoteCall.updateCall editing.id s.formData])
      | .ok =>
          match fetchPasswords s fetchRes with
          | (s1, toasts1, calls1) =>
            ({ s1 with editingPassword := none, formData := emptyFormData },
             { title := "Password updated successfully", description := none,
               destructive := false } :: toasts1,
             RemoteCall.updateCall editing.id s.formData :: calls1)
  | none =>
      match mutRes with
      | .err =>
          ({ s with formData := emptyFormData },
           [{ title := "Error", description := some "Failed to add password",
              destructive := true }],
           [RemoteCall.insertCall s.formData])
      | .ok =>
          match fetchPasswords s fetchRes with
          | (s1, toasts1, calls1) =>
            ({ s1 with isAddDialogOpen := false, formData := emptyFormData },
             { title := "Password added successfully", description := none,
               destructive := false } :: toasts1,
             RemoteCall.insertCall s.formData :: calls1)

/-- JS lookup `prev[id]` on the visibility record, coerced to boolean:
an absent key is `undefined`, which is falsy. -/
def lookupFlag (m : List (String × Bool)) (id : String) : Bool :=
  match m.find? (fun p => p.1 == id) with
  | some p => p.2
  | none => false

/-- Embedding of `togglePasswordVisibility`: spreads the previous record
with `[id]: !prev[id]`; pure local state, no toast, no remote call. -/
def togglePasswordVisibility (s : ControllerState) (id : String) : OpResult :=
  ({ s with showPasswords := (id, !lookupFlag s.showPasswords id) :: s.showPasswords },
   [], [])

/-- Embedding of the edit button's click handler: sets `editingPassword`
to the clicked record and copies its fields into the form buffer, with
`notes: password.notes || ""`. -/
def beginEdit (s : ControllerState) (r : Password) : OpResult :=
  ({ s with editingPassword := some r
          , formData := { website := r.website, username := r.username,
                          password := r.password, notes := r.notes.getD "" } },
   [], [])

/-- Embedding of `deletePassword`: issues the delete-by-id call; on
failure surfaces "Failed to delete password"; on success surfaces
"Password deleted" and runs `fetchPasswords` with outcome `fetchRes`. -/
def deletePassword (s : ControllerState) (id : String) (mutRes : MutResult)
    (fetchRes : FetchResult) : OpResult :=
  match mutRes with
  | .err =>
      (s,
       [{ title := "Error", description := some "Failed to delete password",
          destructive := true }],
       [RemoteCall.deleteCall id])
  | .ok =>
      match fetchPasswords s fetchRes with
      | (s1, toasts1, calls1) =>
        (s1,
         { title := "Password deleted", description := none,
           destructive := false } :: toasts1,
         RemoteCall.deleteCall id :: calls1)

/-- A sample stored record used for concrete instantiations. -/
def sampleRecord : Password :=
  { id := "1", website := "example.com", username := "a@b.com",
    password := "x", notes := none, created_at := "2024-01-01" }

/-- A concrete state in the middle of an edit, with a non-empty buffer. -/
def editFailState : ControllerState :=
  { initialState with
      editingPassword := some sampleRecord
    , formData := { website := "example.com", username := "a@b.com",
                    password := "x", notes := "n" } }

theorem charAt_length (s : String) (i : Nat) (h : i < s.length) :
    (charAt s i).length = 1 := by
  have h2 : s.data.get? i = some (s.data.get ⟨i, h⟩) := List.get?_eq_get h
  unfold charAt
  rw [h2]
  rfl

theorem charAt_mem (s : String) (i : Nat) (c : Char)
    (hc : c ∈ (charAt s i).data) : c ∈ s.data := by
  unfold charAt at hc
  cases hg : s.data.get? i with
  | none => rw [hg] at hc; simp [String.data] at hc
  | some d =>
      rw [hg] at hc
      simp [String.singleton] at hc
      subst hc
      exact List.get?_mem hg

theorem gen_foldl_length (rnd : Nat → Nat) (l : List Nat) (acc : String)
    (h : ∀ i ∈ l, rnd i < chars.length) :
    (l.foldl (fun a i => a ++ charAt chars (rnd i)) acc).length
      = acc.length + l.length := by
  induction l generalizing acc with
  | nil => simp
  | cons x xs ih =>
      have hx : (charAt chars (rnd x)).length = 1 :=
        charAt_length _ _ (h x (List.mem_cons_self x xs))
      have hxs : ∀ i ∈ xs, rnd i < chars.length :=
        fun i hi => h i (List.mem_cons_of_mem x hi)
      simp only [List.foldl_cons]
      rw [ih _ hxs, String.length_append, hx, List.length_cons]
      omega

theorem gen_foldl_mem (rnd : Nat → Nat) (l : List Nat) (acc : String) (c : Char)
    (hc : c ∈ (l.foldl (fun a i => a ++ charAt chars (rnd i)) acc).data) :
    c ∈ acc.data ∨ c ∈ chars.data := by
  induction l generalizing acc with
  | nil => exact Or.inl hc
  | cons x xs ih =>
      simp only [List.foldl_cons] at hc
      rcases ih _ hc with h1 | h2
      · rw [String.data_append] at h1
        rcases List.mem_append.mp h1 with ha | hb
        · exact Or.inl ha
        · exact Or.inr (charAt_mem _ _ _ hb)
      · exact Or.inr h2

theorem generateResult_length (rnd : Nat → Nat)
    (h : ∀ i < 16, rnd i < chars.length) :
    (generateResult rnd).length = 16 := by
  have hall : ∀ i ∈ List.range 16, rnd i < chars.length :=
    fun i hi => h i (List.mem_range.mp hi)
  have := gen_foldl_length rnd (List.range 16) "" hall
  simpa [generateResult] using this

theorem generateResult_mem (rnd : Nat → Nat) (c : Char)
    (hc : c ∈ (generateResult rnd).data) : c ∈ chars.data := by
  unfold generateResult at hc
  rcases gen_foldl_mem rnd (List.range 16) "" c hc with h1 | h2
  · simp [String.data] at h1
  · exact h2

/-- Claim C1: every `submit()` invocation, in the edit branch or the
create branch and whether the remote call succeeds or fails, leaves the
form buffer equal to all-empty strings. -/
theorem submit_resets_formBuffer (s : ControllerState) (mutRes : MutResult)
    (fetchRes : FetchResult) :
    (handleSubmit s mutRes fetchRes).1.formData
      = { website := "", username := "", password := "", notes := "" } := by
  cases h : s.editingPassword <;> cases mutRes <;> cases fetchRes <;>
    simp [handleSubmit, fetchPasswords, h, emptyFormData]

/-- Claim C2, counterexample: at a concrete state mid-edit with a
non-empty form buffer, a failed update does NOT leave all state
unchanged — the form buffer is cleared. -/
theorem edit_failure_counterexample :
    ¬ ((handleSubmit editFailState .err .err).1.passwords = editFailState.passwords ∧
       (handleSubmit editFailState .err .err).1.editingPassword = editFailState.editingPassword ∧
       (handleSubmit editFailState .err .err).1.formData = editFailState.formData) := by
  decide

/-- Claim C2 (amended): when `submit()` runs with an edit target set and
the remote update fails, the records list and edit target are unchanged
and only the update call was issued, but the form buffer IS cleared to
all-empty strings. -/
theorem edit_failure_preserves_state (s : ControllerState) (r : Password)
    (fetchRes : FetchResult) (h : s.editingPassword = some r) :
    (handleSubmit s .err fetchRes).1.passwords = s.passwords ∧
    (handleSubmit s .err fetchRes).1.editingPassword = s.editingPassword ∧
    (handleSubmit s .err fetchRes).1.formData = emptyFormData ∧
    (handleSubmit s .err fetchRes).2.2 = [RemoteCall.updateCall r.id s.formData] ∧
    (handleSubmit s .err fetchRes).2.1 =
      [{ title := "Error", description := some "Failed to update password",
         destructive := true }] := by
  simp [handleSubmit, h]

/-- Witness for the amended C2 at a concrete mid-edit state. -/
theorem edit_failure_preserves_state_witness :
    editFailState.editingPassword = some sampleRecord ∧
    ((handleSubmit editFailState .err .err).1.passwords = editFailState.passwords ∧
     (handleSubmit editFailState .err .err).1.editingPassword = editFailState.editingPassword ∧
     (handleSubmit editFailState .err .err).1.formData = emptyFormData ∧
     (handleSubmit editFailState .err .err).2.2 =
       [RemoteCall.updateCall sampleRecord.id editFailState.formData] ∧
     (handleSubmit editFailState .err .err).2.1 =
       [{ title := "Error", description := some "Failed to update password",
          destructive := true }]) :=
  ⟨rfl, edit_failure_preserves_state editFailState sampleRecord .err rfl⟩

/-- Claim C3, counterexample: the generator alphabet in the source has
70 characters, not 73 as the claim states. -/
theorem generator_alphabet_counterexample : chars.length = 70 ∧ chars.length ≠ 73 := by
  constructor <;> decide

/-- Claim C3 (amended): whenever each sampled index is in range of the
alphabet (as `Math.floor(Math.random() * chars.length)` guarantees),
`generateSecret()` stores in `formBuffer.password` a string of exactly
16 characters, each drawn from the 70-character alphabet
`[A-Z][a-z][0-9]!@#$%^&*`. -/
theorem generateSecret_shape (s : ControllerState) (rnd : Nat → Nat)
    (h : ∀ i < 16, rnd i < chars.length) :
    (generatePassword s rnd).formData.password = generateResult rnd ∧
    (generateResult rnd).length = 16 ∧
    ∀ c ∈ (generateResult rnd).data, c ∈ chars.data :=
  ⟨rfl, generateResult_length rnd h, fun c hc => generateResult_mem rnd c hc⟩

/-- Witness for the amended C3 with the constant-zero index source. -/
theorem generateSecret_shape_witness :
    (∀ i < 16, (fun _ => 0) i < chars.length) ∧
    ((generatePassword initialState (fun _ => 0)).formData.password
        = generateResult (fun _ => 0) ∧
     (generateResult (fun _ => 0)).length = 16 ∧
     ∀ c ∈ (generateResult (fun _ => 0)).data, c ∈ chars.data) :=
  have h0 : (0 : Nat) < chars.length := by decide
  ⟨fun _ _ => h0, generateSecret_shape initialState (fun _ => 0) (fun _ _ => h0)⟩

/-- Claim C4: a successful `refresh()` replaces `records` wholesale with
exactly the sequence the remote list call returned; a null or empty
result yields the empty list with no error toast. -/
theorem refresh_replaces_records (s : ControllerState) (l : List Password) :
    (fetchPasswords s (.ok (some l))).1.passwords = l ∧
    (fetchPasswords s (.ok (some l))).2.1 = [] ∧
    (fetchPasswords s (.ok none)).1.passwords = [] ∧
    (fetchPasswords s (.ok none)).2.1 = [] := by
  simp [fetchPasswords]

/-- Claim C5: a failed `refresh()` keeps `records` at its previous value
and surfaces only the "Failed to load passwords" toast. -/
theorem refresh_failure_preserves_records (s : ControllerState) :
    (fetchPasswords s .err).1.passwords = s.passwords ∧
    (fetchPasswords s .err).2.1 =
      [{ title := "Error", description := some "Failed to load passwords",
         destructive := true }] := by
  simp [fetchPasswords]

/-- Claim C6: with no edit target, `submit()` issues an insert with the
form buffer as payload; on failure the add dialog state is unchanged and
no further call is made, on success the dialog is closed and the list
call (refresh) is issued after the insert. -/
theorem create_submit_spec (s : ControllerState) (fetchRes : FetchResult)
    (h : s.editingPassword = none) :
    ((handleSubmit s .err fetchRes).2.2 = [RemoteCall.insertCall s.formData] ∧
     (handleSubmit s .err fetchRes).1.isAddDialogOpen = s.isAddDialogOpen) ∧
    ((handleSubmit s .ok fetchRes).1.isAddDialogOpen = false ∧
     (handleSubmit s .ok fetchRes).2.2 =
       [RemoteCall.insertCall s.formData, RemoteCall.listCall]) := by
  cases fetchRes <;> simp [handleSubmit, fetchPasswords, h]

/-- Witness for C6 at the initial state with a successful empty fetch. -/
theorem create_submit_spec_witness :
    initialState.editingPassword = none ∧
    (((handleSubmit initialState .err (.ok none)).2.2
        = [RemoteCall.insertCall initialState.formData] ∧
      (handleSubmit initialState .err (.ok none)).1.isAddDialogOpen
        = initialState.isAddDialogOpen) ∧
     ((handleSubmit initialState .ok (.ok none)).1.isAddDialogOpen = false ∧
      (handleSubmit initialState .ok (.ok none)).2.2 =
        [RemoteCall.insertCall initialState.formData, RemoteCall.listCall])) :=
  ⟨rfl, create_submit_spec initialState (.ok none) rfl⟩

/-- Claim C7: toggling visibility twice returns the flag to its original
value; a distinct id keeps its flag, so ids never toggled stay at the
hidden default (false, as in the initial state); the operation issues no
remote call and no toast. -/
theorem toggle_visibility_spec (s : ControllerState) (id id2 : String)
    (h : id2 ≠ id) :
    lookupFlag ((togglePasswordVisibility
        (togglePasswordVisibility s id).1 id).1).showPasswords id
      = lookupFlag s.showPasswords id ∧
    lookupFlag initialState.showPasswords id = false ∧
    lookupFlag ((togglePasswordVisibility s id2).1).showPasswords id
      = lookupFlag s.showPasswords id ∧
    (togglePasswordVisibility s id).2.2 = [] ∧
    (togglePasswordVisibility s id).2.1 = [] := by
  refine ⟨?_, rfl, ?_, rfl, rfl⟩
  · simp [togglePasswordVisibility, lookupFlag, List.find?]
  · have hbeq : (id2 == id) = false := by
      simp [h]
    simp [togglePasswordVisibility, lookupFlag, List.find?, hbeq]

/-- Witness for C7 at the initial state with distinct concrete ids. -/
theorem toggle_visibility_spec_witness :
    ("b" : String) ≠ "a" ∧
    (lookupFlag ((togglePasswordVisibility
        (togglePasswordVisibility initialState "a").1 "a").1).showPasswords "a"
       = lookupFlag initialState.showPasswords "a" ∧
     lookupFlag initialState.showPasswords "a" = false ∧
     lookupFlag ((togglePasswordVisibility initialState "b").1).showPasswords "a"
       = lookupFlag initialState.showPasswords "a" ∧
     (togglePasswordVisibility initialState "a").2.2 = [] ∧
     (togglePasswordVisibility initialState "a").2.1 = []) :=
  ⟨by decide, toggle_visibility_spec initialState "a" "b" (by decide)⟩

/-- Claim C8: `beginEdit(r)` sets the edit target to `r`, copies `r`'s
website, username and password into the form buffer with notes
defaulting to the empty string when absent, leaves `records` unchanged,
and issues no remote call. -/
theorem beginEdit_spec (s : ControllerState) (r : Password) :
    (beginEdit s r).1.editingPassword = some r ∧
    (beginEdit s r).1.formData =
      { website := r.website, username := r.username,
        password := r.password, notes := r.notes.getD "" } ∧
    (beginEdit s r).1.passwords = s.passwords ∧
    (beginEdit s r).2.2 = [] := by
  simp [beginEdit]

/-- Claim C9: every `refresh()` invocation ends with `isLoading` false,
on the failure path as well as the success path. -/
theorem refresh_clears_loading (s : ControllerState) (res : FetchResult) :
    (fetchPasswords s res).1.loading = false := by
  cases res <;> simp [fetchPasswords]

/-- Claim C10: `generateSecret()` modifies only the password field of
the form buffer; website, username and notes keep their values. -/
theorem generate_touches_only_password (s : ControllerState) (rnd : Nat → Nat) :
    (generatePassword s rnd).formData.website = s.formData.website ∧
    (generatePassword s rnd).formData.username = s.formData.username ∧
    (generatePassword s rnd).formData.notes = s.formData.notes := by
  simp [generatePassword]
